import Mathlib

/-!
Shallow embedding of the AI-Release-Guardian data-model layer
(src/models/perf_report.py, test_report.py, risk_assessment.py,
release_decision.py) and proofs about its construction-time invariants
and derived views.

Conventions:
- Python float fields are embedded as rationals (ℚ); all comparisons in
  the source are exact threshold comparisons on supplied values.
- Python int fields are embedded as ℤ; datetime fields as ℤ (opaque).
- Pydantic Literal enums become closed inductive types.
- Construction (pydantic validation) is embedded as a function returning
  Except String Model, running the per-field range constraints and the
  model validators in the source order; Except.error models a pydantic
  ValidationError.
-/

/-- Literal["HIGH", "MEDIUM", "LOW", "CRITICAL"] on RiskAssessment and
ReleaseDecision. -/
inductive ConfidenceLevel where
  | HIGH | MEDIUM | LOW | CRITICAL
  deriving DecidableEq, Repr

/-- Literal["minimal", "moderate", "large", "extreme"] returned by
BlastRadius.scope. -/
inductive ScopeBand where
  | minimal | moderate | large | extreme
  deriving DecidableEq, Repr

/-- Literal["APPROVE", "BLOCK", "REQUEST_REVIEW"]. -/
inductive DecisionKind where
  | APPROVE | BLOCK | REQUEST_REVIEW
  deriving DecidableEq, Repr

/-- Literal["proceed", "hold", "abort", "none"] on
ReleaseDecision.pipeline_action_taken. -/
inductive PipelineAction where
  | proceed | hold | abort | noAction
  deriving DecidableEq, Repr

/-- Literal risk categories of RiskBreakdown.category. -/
inductive RiskCategory where
  | test_risk | performance_risk | blast_radius_risk
  | historical_risk | change_velocity_risk
  deriving DecidableEq, Repr

/-- Literal["none", "minor", "major", "critical"] on MetricComparison.severity. -/
inductive Severity where
  | sevNone | minor | major | critical
  deriving DecidableEq, Repr

/-- Literal["improved", "degraded", "unchanged"] on MetricComparison.direction. -/
inductive Direction where
  | improved | degraded | unchanged
  deriving DecidableEq, Repr

/-! ## BlastRadius (risk_assessment.py lines 62-147) -/

/-- Field record of BlastRadius. -/
structure BlastRadius where
  files_changed : ℤ
  services_affected : List String
  critical_services_affected : List String
  downstream_dependencies : List String
  estimated_users_affected : Option ℤ
  deriving DecidableEq, Repr

namespace BlastRadius

/-- Embeds BlastRadius construction: the per-field ge-constraints
(files_changed ≥ 0, estimated_users_affected ≥ 0 when present) and the
model validator validate_critical_services_in_affected, which requires
every critical service to appear in services_affected. -/
def build (files_changed : ℤ) (services_affected critical_services_affected
    downstream_dependencies : List String)
    (estimated_users_affected : Option ℤ) : Except String BlastRadius :=
  if ¬ (0 ≤ files_changed) then
    .error "files_changed must be >= 0"
  else if ¬ (∀ u ∈ estimated_users_affected, 0 ≤ u) then
    .error "estimated_users_affected must be >= 0"
  else if ¬ (∀ c ∈ critical_services_affected, c ∈ services_affected) then
    .error "Critical service must also be in services_affected"
  else
    .ok ⟨files_changed, services_affected, critical_services_affected,
      downstream_dependencies, estimated_users_affected⟩

/-- Computed field total_impact_zone: the unique union of
services_affected and downstream_dependencies (Python:
list(set(services_affected) | set(downstream_dependencies)); element
order is unspecified, so the embedding picks dedup of the concatenation). -/
def total_impact_zone (br : BlastRadius) : List String :=
  (br.services_affected ++ br.downstream_dependencies).dedup

/-- Computed field involves_critical_path. -/
def involves_critical_path (br : BlastRadius) : Bool :=
  br.critical_services_affected.length > 0

/-- Computed field scope: the four-band classification, checked in the
source order extreme, large, moderate, minimal. -/
def scope (br : BlastRadius) : ScopeBand :=
  let num_services := br.services_affected.length
  let num_critical := br.critical_services_affected.length
  if num_services ≥ 7 ∨ num_critical ≥ 3 then .extreme
  else if num_services ≥ 4 ∨ num_critical ≥ 2 then .large
  else if num_services ≥ 2 then .moderate
  else .minimal

end BlastRadius

/-! ## RiskBreakdown (risk_assessment.py lines 14-59) -/

/-- Field record of RiskBreakdown. -/
structure RiskBreakdown where
  category : RiskCategory
  raw_score : ℚ
  weight : ℚ
  weighted_score : ℚ
  details : String
  deriving DecidableEq, Repr

namespace RiskBreakdown

/-- Embeds RiskBreakdown construction: per-field range constraints
(raw_score in [0,100], weight in [0,1], weighted_score ≥ 0) and the
model validator validate_weighted_score requiring
|weighted_score - raw_score * weight| ≤ 0.01. -/
def build (category : RiskCategory) (raw_score weight weighted_score : ℚ)
    (details : String) : Except String RiskBreakdown :=
  if ¬ (0 ≤ raw_score ∧ raw_score ≤ 100) then
    .error "raw_score must be in [0, 100]"
  else if ¬ (0 ≤ weight ∧ weight ≤ 1) then
    .error "weight must be in [0, 1]"
  else if ¬ (0 ≤ weighted_score) then
    .error "weighted_score must be >= 0"
  else if |weighted_score - raw_score * weight| > 1/100 then
    .error "weighted_score must equal raw_score * weight"
  else
    .ok ⟨category, raw_score, weight, weighted_score, details⟩

end RiskBreakdown

/-! ## MetricComparison (perf_report.py lines 58-105) -/

/-- Field record of MetricComparison. -/
structure MetricComparison where
  metric_name : String
  service : String
  current_value : ℚ
  baseline_mean : ℚ
  baseline_stddev : ℚ
  baseline_sample_count : ℤ
  p_value : ℚ
  cohens_d : ℚ
  is_regression : Bool
  severity : Severity
  direction : Direction
  deriving DecidableEq, Repr

namespace MetricComparison

/-- Embeds MetricComparison construction. The source declares only
per-field range constraints (baseline_stddev ≥ 0,
baseline_sample_count ≥ 0, p_value in [0,1], cohens_d ≥ 0); is_regression
is an ordinary supplied field whose description documents
"True only if BOTH p < 0.05 AND cohens_d > 0.5", but no model validator
enforces that relation. -/
def build (metric_name service : String)
    (current_value baseline_mean baseline_stddev : ℚ)
    (baseline_sample_count : ℤ) (p_value cohens_d : ℚ)
    (is_regression : Bool) (severity : Severity) (direction : Direction) :
    Except String MetricComparison :=
  if ¬ (0 ≤ baseline_stddev) then
    .error "baseline_stddev must be >= 0"
  else if ¬ (0 ≤ baseline_sample_count) then
    .error "baseline_sample_count must be >= 0"
  else if ¬ (0 ≤ p_value ∧ p_value ≤ 1) then
    .error "p_value must be in [0, 1]"
  else if ¬ (0 ≤ cohens_d) then
    .error "cohens_d must be >= 0"
  else
    .ok ⟨metric_name, service, current_value, baseline_mean, baseline_stddev,
      baseline_sample_count, p_value, cohens_d, is_regression, severity, direction⟩

/-- Computed field is_statistically_significant. -/
def is_statistically_significant (mc : MetricComparison) : Bool :=
  mc.p_value < 5/100

/-- Computed field is_practically_significant. -/
def is_practically_significant (mc : MetricComparison) : Bool :=
  mc.cohens_d > 1/2

end MetricComparison

/-! ## Test report models (test_report.py) -/

/-- Literal["new_bug", "flaky", "infra", "known_issue"]. -/
inductive FailureCategory where
  | new_bug | flaky | infra | known_issue
  deriving DecidableEq, Repr

/-- Literal["algorithm", "llm"] on FailureClassification.classified_by. -/
inductive ClassifierKind where
  | algorithm | llm
  deriving DecidableEq, Repr

/-- Field record of FailureClassification (test_report.py lines 51-71). -/
structure FailureClassification where
  test_id : String
  test_name : String
  category : FailureCategory
  confidence : ℚ
  reasoning : String
  flake_rate : Option ℚ
  classified_by : ClassifierKind
  deriving DecidableEq, Repr

/-- Field record of CoverageReport (test_report.py lines 74-105). -/
structure CoverageReport where
  total_lines : ℤ
  covered_lines : ℤ
  coverage_percentage : ℚ
  baseline_coverage : ℚ
  delta_from_baseline : ℚ
  uncovered_critical_paths : List String
  deriving DecidableEq, Repr

/-- The subset of pydantic ValidationInfo.data consulted by
TestAnalysisReport.validate_test_counts_sum: for each of the five count
keys, the already-validated value when the key has been validated before
the field currently under validation, and none otherwise (pydantic
validates fields in declaration order and never includes the field
currently being validated in info.data). -/
structure CountData where
  total_tests : Option ℤ
  passed : Option ℤ
  failed : Option ℤ
  skipped : Option ℤ
  errored : Option ℤ
  deriving DecidableEq, Repr

/-- Field record of TestAnalysisReport (test_report.py lines 108-149). -/
structure TestAnalysisReport where
  build_id : String
  total_tests : ℤ
  passed : ℤ
  failed : ℤ
  skipped : ℤ
  errored : ℤ
  failure_classifications : List FailureClassification
  coverage : Option CoverageReport
  test_confidence_score : ℤ
  summary : String
  timestamp : ℤ
  deriving DecidableEq, Repr

namespace TestAnalysisReport

/-- Embeds the field validator validate_test_counts_sum (test_report.py
lines 131-149): it errors only when all five keys "total_tests",
"passed", "failed", "skipped", "errored" are present in info.data and
passed + failed + skipped + errored differs from total_tests; otherwise
it returns the field value unchanged. -/
def validate_test_counts_sum (data : CountData) (v : ℤ) : Except String ℤ :=
  match data.total_tests, data.passed, data.failed, data.skipped, data.errored with
  | some t, some p, some f, some s, some e =>
      if p + f + s + e ≠ t then
        .error "Test counts must sum to total_tests"
      else
        .ok v
  | _, _, _, _, _ => .ok v

/-- Embeds TestAnalysisReport construction: per-field range constraints
in declaration order, with validate_test_counts_sum invoked after each
of passed, failed, skipped, errored, receiving exactly the fields
validated so far (the field currently being validated is absent). -/
def build (build_id : String) (total_tests passed failed skipped errored : ℤ)
    (failure_classifications : List FailureClassification)
    (coverage : Option CoverageReport) (test_confidence_score : ℤ)
    (summary : String) (timestamp : ℤ) : Except String TestAnalysisReport := do
  if ¬ (0 ≤ total_tests) then
    throw "total_tests must be >= 0"
  if ¬ (0 ≤ passed) then
    throw "passed must be >= 0"
  let _ ← validate_test_counts_sum ⟨some total_tests, none, none, none, none⟩ passed
  if ¬ (0 ≤ failed) then
    throw "failed must be >= 0"
  let _ ← validate_test_counts_sum ⟨some total_tests, some passed, none, none, none⟩ failed
  if ¬ (0 ≤ skipped) then
    throw "skipped must be >= 0"
  let _ ← validate_test_counts_sum
    ⟨some total_tests, some passed, some failed, none, none⟩ skipped
  if ¬ (0 ≤ errored) then
    throw "errored must be >= 0"
  let _ ← validate_test_counts_sum
    ⟨some total_tests, some passed, some failed, some skipped, none⟩ errored
  if ¬ (0 ≤ test_confidence_score ∧ test_confidence_score ≤ 100) then
    throw "test_confidence_score must be in [0, 100]"
  return ⟨build_id, total_tests, passed, failed, skipped, errored,
    failure_classifications, coverage, test_confidence_score, summary, timestamp⟩

end TestAnalysisReport

/-! ## HistoricalContext and RiskAssessment (risk_assessment.py lines 150-308) -/

/-- Field record of HistoricalContext. -/
structure HistoricalContext where
  service : String
  total_deployments_analyzed : ℤ
  rollback_count : ℤ
  rollback_rate : ℚ
  incident_count : ℤ
  avg_recovery_time_minutes : Option ℚ
  similar_change_outcomes : List String
  last_rollback_days_ago : Option ℤ
  deriving DecidableEq, Repr

/-- Field record of RiskAssessment. -/
structure RiskAssessment where
  build_id : String
  composite_risk_score : ℤ
  confidence_level : ConfidenceLevel
  risk_breakdown : List RiskBreakdown
  blast_radius : BlastRadius
  historical_context : Option HistoricalContext
  narrative : String
  recommended_actions : List String
  timestamp : ℤ
  deriving DecidableEq, Repr

namespace RiskAssessment

/-- Sum of weighted_score over a breakdown list, as computed by
validate_weighted_scores_sum. -/
def totalWeighted (l : List RiskBreakdown) : ℚ :=
  (l.map (fun rb => rb.weighted_score)).sum

/-- The expected_level computation inside
validate_confidence_level_matches_score: score ≤ 20 is HIGH, ≤ 50 is
MEDIUM, ≤ 75 is LOW, and everything above is CRITICAL. -/
def expectedLevel (score : ℤ) : ConfidenceLevel :=
  if score ≤ 20 then .HIGH
  else if score ≤ 50 then .MEDIUM
  else if score ≤ 75 then .LOW
  else .CRITICAL

/-- Embeds RiskAssessment construction: the composite_risk_score range
constraint, then the two model validators in source order:
validate_weighted_scores_sum (|sum of weighted_score −
composite_risk_score| ≤ 1.0) and validate_confidence_level_matches_score
(supplied confidence_level equals the expected band). -/
def build (build_id : String) (composite_risk_score : ℤ)
    (confidence_level : ConfidenceLevel) (risk_breakdown : List RiskBreakdown)
    (blast_radius : BlastRadius) (historical_context : Option HistoricalContext)
    (narrative : String) (recommended_actions : List String) (timestamp : ℤ) :
    Except String RiskAssessment :=
  if ¬ (0 ≤ composite_risk_score ∧ composite_risk_score ≤ 100) then
    .error "composite_risk_score must be in [0, 100]"
  else if |totalWeighted risk_breakdown - (composite_risk_score : ℚ)| > 1 then
    .error "Sum of weighted_scores must approximately equal composite_risk_score"
  else if confidence_level ≠ expectedLevel composite_risk_score then
    .error "confidence_level does not match expected level for score"
  else
    .ok ⟨build_id, composite_risk_score, confidence_level, risk_breakdown,
      blast_radius, historical_context, narrative, recommended_actions, timestamp⟩

/-- Computed field is_auto_approvable. -/
def is_auto_approvable (ra : RiskAssessment) : Bool :=
  ra.confidence_level = ConfidenceLevel.HIGH

/-- Computed field requires_block. -/
def requires_block (ra : RiskAssessment) : Bool :=
  ra.confidence_level = ConfidenceLevel.CRITICAL

/-- One comparison step of Python max(risk_breakdown, key=weighted_score):
the current best is replaced only when the next element's key is strictly
greater. -/
def maxStep (acc rb : RiskBreakdown) : RiskBreakdown :=
  if rb.weighted_score > acc.weighted_score then rb else acc

/-- Computed field top_risk_factor: None on an empty breakdown list,
otherwise Python max(risk_breakdown, key=weighted_score), which scans
left to right applying maxStep, so the first maximum wins on ties. -/
def top_risk_factor (ra : RiskAssessment) : Option RiskBreakdown :=
  match ra.risk_breakdown with
  | [] => none
  | x :: xs => some (xs.foldl maxStep x)

end RiskAssessment

/-! ## Remaining performance models (perf_report.py lines 14-220) -/

/-- Field record of BenchmarkResult. -/
structure BenchmarkResult where
  service : String
  endpoint : Option String
  latency_p50_ms : ℚ
  latency_p95_ms : ℚ
  latency_p99_ms : ℚ
  throughput_rps : ℚ
  memory_mb : ℚ
  error_rate : ℚ
  sample_count : ℤ
  deriving DecidableEq, Repr

/-- Field record of SLOCheck. -/
structure SLOCheck where
  slo_name : String
  service : String
  target_description : String
  target_value : ℚ
  current_value : ℚ
  is_met : Bool
  margin : ℚ
  deriving DecidableEq, Repr

/-- Field record of PerformanceAnalysisReport. -/
structure PerformanceAnalysisReport where
  build_id : String
  comparisons : List MetricComparison
  benchmarks : List BenchmarkResult
  slo_checks : List SLOCheck
  regressions_detected : ℤ
  anomalies_detected : ℤ
  missing_metrics : ℤ
  perf_confidence_score : ℤ
  summary : String
  timestamp : ℤ
  deriving DecidableEq, Repr

/-! ## Release decision models (release_decision.py) -/

/-- Literal["slack", "pagerduty", "email", "github_status"]. -/
inductive Channel where
  | slack | pagerduty | email | github_status
  deriving DecidableEq, Repr

/-- Literal["approval", "block", "review_request", "override"]. -/
inductive MessageType where
  | approval | block | review_request | override
  deriving DecidableEq, Repr

/-- Field record of NotificationRecord (release_decision.py lines 18-34). -/
structure NotificationRecord where
  channel : Channel
  recipient : String
  message_type : MessageType
  sent_at : ℤ
  success : Bool
  error : Option String
  deriving DecidableEq, Repr

/-- Field record of PolicyEvaluation (release_decision.py lines 37-84). -/
structure PolicyEvaluation where
  environment : String
  policy_version : String
  risk_threshold_approve : ℤ
  risk_threshold_review : ℤ
  actual_risk_score : ℤ
  deployment_window_ok : Bool
  freeze_period_ok : Bool
  overrides_applied : List String
  raw_decision : DecisionKind
  final_decision : DecisionKind
  deriving DecidableEq, Repr

/-- Field record of ReleaseDecision (release_decision.py lines 87-176). -/
structure ReleaseDecision where
  build_id : String
  commit_sha : String
  decision : DecisionKind
  risk_score : ℤ
  confidence_level : ConfidenceLevel
  rationale : String
  policy_evaluation : PolicyEvaluation
  manual_override : Bool
  overridden_by : Option String
  override_reason : Option String
  pipeline_action_taken : PipelineAction
  notifications : List NotificationRecord
  timestamp : ℤ
  deriving DecidableEq, Repr

namespace ReleaseDecision

/-- The expected_actions mapping inside
validate_pipeline_action_matches_decision: APPROVE maps to proceed,
BLOCK to abort, REQUEST_REVIEW to hold. -/
def expectedAction : DecisionKind → PipelineAction
  | .APPROVE => .proceed
  | .BLOCK => .abort
  | .REQUEST_REVIEW => .hold

/-- Embeds ReleaseDecision construction: the risk_score range constraint,
then the two model validators in source order:
validate_manual_override_has_reviewer (manual_override requires
overridden_by to be set) and validate_pipeline_action_matches_decision
(pipeline_action_taken equals the fixed image of decision). -/
def build (build_id commit_sha : String) (decision : DecisionKind)
    (risk_score : ℤ) (confidence_level : ConfidenceLevel) (rationale : String)
    (policy_evaluation : PolicyEvaluation) (manual_override : Bool)
    (overridden_by override_reason : Option String)
    (pipeline_action_taken : PipelineAction)
    (notifications : List NotificationRecord) (timestamp : ℤ) :
    Except String ReleaseDecision :=
  if ¬ (0 ≤ risk_score ∧ risk_score ≤ 100) then
    .error "risk_score must be in [0, 100]"
  else if manual_override ∧ overridden_by = Option.none then
    .error "overridden_by must be set when manual_override is True"
  else if pipeline_action_taken ≠ expectedAction decision then
    .error "pipeline_action_taken inconsistent with decision"
  else
    .ok ⟨build_id, commit_sha, decision, risk_score, confidence_level,
      rationale, policy_evaluation, manual_override, overridden_by,
      override_reason, pipeline_action_taken, notifications, timestamp⟩

end ReleaseDecision

/-- Field record of AuditRecord (release_decision.py lines 179-221);
agent_timings (a Python dict of string keys to float timings) is embedded
as an association list. -/
structure AuditRecord where
  decision_id : String
  build_id : String
  commit_sha : String
  environment : String
  decision : ReleaseDecision
  test_report_snapshot : Option TestAnalysisReport
  perf_report_snapshot : Option PerformanceAnalysisReport
  risk_assessment_snapshot : Option RiskAssessment
  graph_execution_time_seconds : ℚ
  agent_timings : List (String × ℚ)
  errors_encountered : List String
  created_at : ℤ
  deriving DecidableEq, Repr

namespace AuditRecord

/-- Embeds AuditRecord construction: the only constraint in the source is
the per-field ge-constraint graph_execution_time_seconds ≥ 0; the model
declares no cross-field validator (in particular none relating
decision.risk_score to risk_assessment_snapshot.composite_risk_score). -/
def build (decision_id build_id commit_sha environment : String)
    (decision : ReleaseDecision)
    (test_report_snapshot : Option TestAnalysisReport)
    (perf_report_snapshot : Option PerformanceAnalysisReport)
    (risk_assessment_snapshot : Option RiskAssessment)
    (graph_execution_time_seconds : ℚ) (agent_timings : List (String × ℚ))
    (errors_encountered : List String) (created_at : ℤ) :
    Except String AuditRecord :=
  if ¬ (0 ≤ graph_execution_time_seconds) then
    .error "graph_execution_time_seconds must be >= 0"
  else
    .ok ⟨decision_id, build_id, commit_sha, environment, decision,
      test_report_snapshot, perf_report_snapshot, risk_assessment_snapshot,
      graph_execution_time_seconds, agent_timings, errors_encountered, created_at⟩

/-- Computed field had_errors. -/
def had_errors (ar : AuditRecord) : Bool :=
  ar.errors_encountered.length > 0

/-- Computed field is_complete. -/
def is_complete (ar : AuditRecord) : Bool :=
  ar.test_report_snapshot.isSome ∧ ar.perf_report_snapshot.isSome ∧
    ar.risk_assessment_snapshot.isSome

end AuditRecord

/-! ## Concrete instances used in closed theorems -/

/-- A risk breakdown contributing weighted score 20 (20 × 1). -/
def rbTwenty : RiskBreakdown :=
  ⟨RiskCategory.test_risk, 20, 1, 20, "baseline test risk"⟩

/-- An empty blast radius. -/
def brEmpty : BlastRadius := ⟨0, [], [], [], none⟩

/-- A risk assessment with composite score 20 and HIGH confidence. -/
def raTwenty : RiskAssessment :=
  ⟨"build-1", 20, ConfidenceLevel.HIGH, [rbTwenty], brEmpty, none,
    "low risk", [], 0⟩

/-- A policy evaluation whose raw and final decisions are both APPROVE. -/
def peApprove : PolicyEvaluation :=
  ⟨"production", "1.0", 25, 50, 10, true, true, [],
    DecisionKind.APPROVE, DecisionKind.APPROVE⟩

/-- An approved release decision with risk_score 10 and no override. -/
def rdTen : ReleaseDecision :=
  ⟨"build-1", "c0ffee", DecisionKind.APPROVE, 10, ConfidenceLevel.HIGH,
    "low risk", peApprove, false, none, none, PipelineAction.proceed, [], 0⟩

/-- An approved release decision carrying a manual override with a
reviewer identifier. -/
def rdOverride : ReleaseDecision :=
  ⟨"build-1", "c0ffee", DecisionKind.APPROVE, 10, ConfidenceLevel.HIGH,
    "risk accepted", peApprove, true, some "alice", some "risk accepted",
    PipelineAction.proceed, [], 0⟩

/-- Two risk breakdowns sharing the maximal weighted score 5. -/
def rbTieA : RiskBreakdown := ⟨RiskCategory.test_risk, 5, 1, 5, "a"⟩

/-- Second element of the tie, distinct from rbTieA. -/
def rbTieB : RiskBreakdown := ⟨RiskCategory.performance_risk, 5, 1, 5, "b"⟩

/-- A risk assessment whose breakdown list has a tied maximum. -/
def raTie : RiskAssessment :=
  ⟨"build-2", 10, ConfidenceLevel.HIGH, [rbTieA, rbTieB], brEmpty, none,
    "tied factors", [], 0⟩

/-! ## Claim theorems -/

/-- C1: the claim states that constructing a MetricComparison whose
supplied is_regression disagrees with (p_value < 0.05 AND cohens_d > 0.5)
fails at construction time. The source declares no validator relating
is_regression to p_value and cohens_d, so the claim's own example input
(p_value = 0.03, cohens_d = 0.4, is_regression = true) constructs
successfully while violating the documented formula: the comparison is
statistically but not practically significant, yet carries
is_regression = true. -/
theorem metricComparison_is_regression_not_enforced :
    ∃ mc, MetricComparison.build "latency_p99" "api-service" 218 185 12 30
        (3/100) (2/5) true Severity.major Direction.degraded = Except.ok mc
      ∧ mc.is_regression = true
      ∧ mc.is_statistically_significant = true
      ∧ mc.is_practically_significant = false := by
  refine ⟨⟨"latency_p99", "api-service", 218, 185, 12, 30, 3/100, 2/5, true,
    Severity.major, Direction.degraded⟩, ?_, rfl, ?_, ?_⟩
  · simp only [MetricComparison.build]
    norm_num
  · simp only [MetricComparison.is_statistically_significant]
    norm_num
  · simp only [MetricComparison.is_practically_significant]
    norm_num

/-- C2: the claim states that {total_tests=10, passed=7, failed=2,
skipped=1, errored=0} constructs and {total_tests=10, passed=7, failed=2,
skipped=0, errored=0} fails. The first part holds; the second does not:
validate_test_counts_sum only fires when all five count keys are present
in info.data, but pydantic never includes the field currently being
validated, so the guard is false at every one of the four invocations and
the reconciliation check is dead code. The inconsistent input constructs
successfully. -/
theorem testAnalysisReport_count_check_not_enforced :
    (∃ r, TestAnalysisReport.build "build-1" 10 7 2 1 0 [] none 80 "ok" 0 =
        Except.ok r)
    ∧ (∃ r, TestAnalysisReport.build "build-1" 10 7 2 0 0 [] none 80 "ok" 0 =
        Except.ok r
      ∧ r.passed + r.failed + r.skipped + r.errored ≠ r.total_tests) := by
  refine ⟨⟨_, rfl⟩, ⟨_, rfl, by decide⟩⟩

/-- C10: for every BlastRadius, total_impact_zone is duplicate-free and a
name belongs to it exactly when it occurs in services_affected or in
downstream_dependencies. -/
theorem blastRadius_total_impact_zone_union (br : BlastRadius) :
    br.total_impact_zone.Nodup
    ∧ ∀ x : String, x ∈ br.total_impact_zone ↔
        x ∈ br.services_affected ∨ x ∈ br.downstream_dependencies := by
  refine ⟨List.nodup_dedup _, fun x => ?_⟩
  simp [BlastRadius.total_impact_zone, List.mem_dedup, List.mem_append]

/-- C5: every constructed BlastRadius derives scope by the precedence
extreme (≥7 services or ≥3 critical), else large (≥4 services or ≥2
critical), else moderate (≥2 services), else minimal; and the three quoted
instances hold: 7 services with 0 critical is extreme, 3 services with 2
critical is large, 1 service with 0 critical is minimal. -/
theorem blastRadius_scope_classification :
    (∀ (fc : ℤ) (sa ca dd : List String) (eu : Option ℤ) (br : BlastRadius),
      BlastRadius.build fc sa ca dd eu = Except.ok br →
      br.scope =
        (if br.services_affected.length ≥ 7 ∨
            br.critical_services_affected.length ≥ 3 then ScopeBand.extreme
         else if br.services_affected.length ≥ 4 ∨
            br.critical_services_affected.length ≥ 2 then ScopeBand.large
         else if br.services_affected.length ≥ 2 then ScopeBand.moderate
         else ScopeBand.minimal))
    ∧ (∃ br, BlastRadius.build 7 ["s1", "s2", "s3", "s4", "s5", "s6", "s7"]
        [] [] none = Except.ok br ∧ br.scope = ScopeBand.extreme)
    ∧ (∃ br, BlastRadius.build 3 ["s1", "s2", "s3"] ["s1", "s2"] [] none =
        Except.ok br ∧ br.scope = ScopeBand.large)
    ∧ (∃ br, BlastRadius.build 1 ["s1"] [] [] none = Except.ok br
        ∧ br.scope = ScopeBand.minimal) := by
  refine ⟨fun fc sa ca dd eu br _ => rfl, ⟨_, rfl, ?_⟩, ⟨_, rfl, ?_⟩, ⟨_, rfl, ?_⟩⟩
  all_goals decide

/-- C3: every constructed RiskAssessment has confidence_level equal to the
band of its composite_risk_score, construction fails whenever the supplied
confidence_level is not that band, and the band boundaries are inclusive:
20 is HIGH, 21 is MEDIUM, 75 is LOW, 76 is CRITICAL. -/
theorem riskAssessment_confidence_band (bid : String) (score : ℤ)
    (conf : ConfidenceLevel) (bd : List RiskBreakdown) (br : BlastRadius)
    (hc : Option HistoricalContext) (nar : String) (acts : List String)
    (ts : ℤ) :
    (∀ ra, RiskAssessment.build bid score conf bd br hc nar acts ts =
        Except.ok ra →
      ra.confidence_level = RiskAssessment.expectedLevel ra.composite_risk_score)
    ∧ (conf ≠ RiskAssessment.expectedLevel score →
        ∀ ra, RiskAssessment.build bid score conf bd br hc nar acts ts ≠
          Except.ok ra)
    ∧ RiskAssessment.expectedLevel 20 = ConfidenceLevel.HIGH
    ∧ RiskAssessment.expectedLevel 21 = ConfidenceLevel.MEDIUM
    ∧ RiskAssessment.expectedLevel 75 = ConfidenceLevel.LOW
    ∧ RiskAssessment.expectedLevel 76 = ConfidenceLevel.CRITICAL := by
  refine ⟨?_, ?_, by decide, by decide, by decide, by decide⟩
  · intro ra h
    unfold RiskAssessment.build at h
    split_ifs at h with h1 h2 h3
    injection h with h'
    subst h'
    exact not_not.mp h3
  · intro hne ra h
    unfold RiskAssessment.build at h
    split_ifs at h

/-- Witness for C3: applied to the score-20 HIGH assessment (construction
succeeds) and to the same fields with MEDIUM supplied (construction
fails). -/
theorem riskAssessment_confidence_band_witness :
    raTwenty.confidence_level =
      RiskAssessment.expectedLevel raTwenty.composite_risk_score
    ∧ ∀ ra, RiskAssessment.build "build-1" 20 ConfidenceLevel.MEDIUM
        [rbTwenty] brEmpty none "low risk" [] 0 ≠ Except.ok ra := by
  constructor
  · refine (riskAssessment_confidence_band "build-1" 20 ConfidenceLevel.HIGH
      [rbTwenty] brEmpty none "low risk" [] 0).1 raTwenty ?_
    simp only [RiskAssessment.build, RiskAssessment.totalWeighted,
      RiskAssessment.expectedLevel, rbTwenty, raTwenty, brEmpty]
    norm_num
  · refine (riskAssessment_confidence_band "build-1" 20 ConfidenceLevel.MEDIUM
      [rbTwenty] brEmpty none "low risk" [] 0).2.1 ?_
    simp [RiskAssessment.expectedLevel]

/-- C4: every constructed RiskAssessment has its weighted-score sum within
1.0 of composite_risk_score, and any candidate deviating by more than 1.0
is rejected at construction. -/
theorem riskAssessment_weighted_sum_tolerance (bid : String) (score : ℤ)
    (conf : ConfidenceLevel) (bd : List RiskBreakdown) (br : BlastRadius)
    (hc : Option HistoricalContext) (nar : String) (acts : List String)
    (ts : ℤ) :
    (∀ ra, RiskAssessment.build bid score conf bd br hc nar acts ts =
        Except.ok ra →
      |RiskAssessment.totalWeighted ra.risk_breakdown -
        (ra.composite_risk_score : ℚ)| ≤ 1)
    ∧ (|RiskAssessment.totalWeighted bd - (score : ℚ)| > 1 →
        ∀ ra, RiskAssessment.build bid score conf bd br hc nar acts ts ≠
          Except.ok ra) := by
  constructor
  · intro ra h
    unfold RiskAssessment.build at h
    split_ifs at h with h1 h2 h3
    injection h with h'
    subst h'
    exact not_lt.mp h2
  · intro hgt ra h
    unfold RiskAssessment.build at h
    split_ifs at h

/-- C6: every constructed ReleaseDecision has pipeline_action_taken equal
to the fixed image of its decision (APPROVE to proceed, BLOCK to abort,
REQUEST_REVIEW to hold), any other decision/action pair is rejected at
construction, and no decision maps to the default action "none". -/
theorem releaseDecision_action_mapping (bid csha : String)
    (dec : DecisionKind) (rs : ℤ) (cl : ConfidenceLevel) (rat : String)
    (pe : PolicyEvaluation) (mo : Bool) (ob orr : Option String)
    (pa : PipelineAction) (nots : List NotificationRecord) (ts : ℤ) :
    (∀ rd, ReleaseDecision.build bid csha dec rs cl rat pe mo ob orr pa
        nots ts = Except.ok rd →
      rd.pipeline_action_taken = ReleaseDecision.expectedAction rd.decision)
    ∧ (pa ≠ ReleaseDecision.expectedAction dec →
        ∀ rd, ReleaseDecision.build bid csha dec rs cl rat pe mo ob orr pa
          nots ts ≠ Except.ok rd)
    ∧ (∀ d, ReleaseDecision.expectedAction d ≠ PipelineAction.noAction)
    ∧ ReleaseDecision.expectedAction DecisionKind.APPROVE =
        PipelineAction.proceed
    ∧ ReleaseDecision.expectedAction DecisionKind.BLOCK = PipelineAction.abort
    ∧ ReleaseDecision.expectedAction DecisionKind.REQUEST_REVIEW =
        PipelineAction.hold := by
  refine ⟨?_, ?_, fun d => by cases d <;> decide, rfl, rfl, rfl⟩
  · intro rd h
    unfold ReleaseDecision.build at h
    split_ifs at h with h1 h2 h3
    injection h with h'
    subst h'
    exact not_not.mp h3
  · intro hne rd h
    unfold ReleaseDecision.build at h
    split_ifs at h

/-- Witness for C6: applied to the approved decision carrying action
proceed (construction succeeds) and to the same fields with the default
action "none" (construction fails). -/
theorem releaseDecision_action_mapping_witness :
    rdTen.pipeline_action_taken = ReleaseDecision.expectedAction rdTen.decision
    ∧ ∀ rd, ReleaseDecision.build "build-1" "c0ffee" DecisionKind.APPROVE 10
        ConfidenceLevel.HIGH "low risk" peApprove false none none
        PipelineAction.noAction [] 0 ≠ Except.ok rd := by
  constructor
  · exact (releaseDecision_action_mapping "build-1" "c0ffee"
      DecisionKind.APPROVE 10 ConfidenceLevel.HIGH "low risk" peApprove
      false none none PipelineAction.proceed [] 0).1 rdTen rfl
  · exact (releaseDecision_action_mapping "build-1" "c0ffee"
      DecisionKind.APPROVE 10 ConfidenceLevel.HIGH "low risk" peApprove
      false none none PipelineAction.noAction [] 0).2.1 (by decide)

/-- C7: constructing a ReleaseDecision with manual_override = true and
overridden_by = None fails, and every constructed ReleaseDecision with
manual_override = true carries some reviewer identifier. -/
theorem releaseDecision_override_requires_reviewer (bid csha : String)
    (dec : DecisionKind) (rs : ℤ) (cl : ConfidenceLevel) (rat : String)
    (pe : PolicyEvaluation) (mo : Bool) (ob orr : Option String)
    (pa : PipelineAction) (nots : List NotificationRecord) (ts : ℤ) :
    (∀ rd, ReleaseDecision.build bid csha dec rs cl rat pe mo ob orr pa
        nots ts = Except.ok rd →
      rd.manual_override = true → ∃ reviewer, rd.overridden_by = some reviewer)
    ∧ (mo = true → ob = Option.none →
        ∀ rd, ReleaseDecision.build bid csha dec rs cl rat pe mo ob orr pa
          nots ts ≠ Except.ok rd) := by
  constructor
  · intro rd h hmo
    unfold ReleaseDecision.build at h
    split_ifs at h with h1 h2 h3
    injection h with h'
    subst h'
    cases hob : ob with
    | none => exact absurd ⟨hmo, hob⟩ h2
    | some reviewer => exact ⟨reviewer, rfl⟩
  · intro hmo hob rd h
    subst hmo
    subst hob
    unfold ReleaseDecision.build at h
    split_ifs at h with h1 h2 h3
    exact h2 ⟨rfl, rfl⟩

/-- Witness for C7: applied to the overridden decision naming a reviewer
(construction succeeds, so a reviewer exists) and to the same fields with
overridden_by = None (construction fails). -/
theorem releaseDecision_override_requires_reviewer_witness :
    (∃ reviewer, rdOverride.overridden_by = some reviewer)
    ∧ ∀ rd, ReleaseDecision.build "build-1" "c0ffee" DecisionKind.APPROVE 10
        ConfidenceLevel.HIGH "risk accepted" peApprove true none
        (some "risk accepted") PipelineAction.proceed [] 0 ≠ Except.ok rd := by
  constructor
  · exact (releaseDecision_override_requires_reviewer "build-1" "c0ffee"
      DecisionKind.APPROVE 10 ConfidenceLevel.HIGH "risk accepted" peApprove
      true (some "alice") (some "risk accepted") PipelineAction.proceed
      [] 0).1 rdOverride rfl rfl
  · exact (releaseDecision_override_requires_reviewer "build-1" "c0ffee"
      DecisionKind.APPROVE 10 ConfidenceLevel.HIGH "risk accepted" peApprove
      true none (some "risk accepted") PipelineAction.proceed [] 0).2 rfl rfl

/-- Witness for C4: the score-20 assessment is within tolerance, and
supplying composite score 50 against the same weight-20 breakdown is
rejected. -/
theorem riskAssessment_weighted_sum_tolerance_witness :
    |RiskAssessment.totalWeighted raTwenty.risk_breakdown -
      (raTwenty.composite_risk_score : ℚ)| ≤ 1
    ∧ ∀ ra, RiskAssessment.build "build-1" 50 ConfidenceLevel.MEDIUM
        [rbTwenty] brEmpty none "low risk" [] 0 ≠ Except.ok ra := by
  constructor
  · refine (riskAssessment_weighted_sum_tolerance "build-1" 20
      ConfidenceLevel.HIGH [rbTwenty] brEmpty none "low risk" [] 0).1
      raTwenty ?_
    simp only [RiskAssessment.build, RiskAssessment.totalWeighted,
      RiskAssessment.expectedLevel, rbTwenty, raTwenty, brEmpty]
    norm_num
  · refine (riskAssessment_weighted_sum_tolerance "build-1" 50
      ConfidenceLevel.MEDIUM [rbTwenty] brEmpty none "low risk" [] 0).2 ?_
    simp only [RiskAssessment.totalWeighted, rbTwenty]
    norm_num

/-- Witness for C5: the universally quantified part applied to the
concrete construction of the single-service blast radius. -/
theorem blastRadius_scope_classification_witness :
    BlastRadius.scope ⟨1, ["s1"], [], [], none⟩ =
      (if ([("s1" : String)]).length ≥ 7 ∨ ([] : List String).length ≥ 3
        then ScopeBand.extreme
       else if ([("s1" : String)]).length ≥ 4 ∨ ([] : List String).length ≥ 2
        then ScopeBand.large
       else if ([("s1" : String)]).length ≥ 2 then ScopeBand.moderate
       else ScopeBand.minimal) :=
  blastRadius_scope_classification.1 1 ["s1"] [] [] none
    ⟨1, ["s1"], [], [], none⟩ rfl

/-- Helper: the left fold of maxStep lands on the first element of
acc :: xs attaining the maximal weighted_score — either the accumulator
itself dominates, or the result splits xs with strictly smaller weights
before it and no larger weight after it. -/
theorem maxStep_foldl_first_max (xs : List RiskBreakdown)
    (acc : RiskBreakdown) :
    (xs.foldl RiskAssessment.maxStep acc = acc
      ∧ ∀ y ∈ xs, y.weighted_score ≤ acc.weighted_score)
    ∨ (∃ l₁ l₂, xs = l₁ ++ xs.foldl RiskAssessment.maxStep acc :: l₂
      ∧ acc.weighted_score <
          (xs.foldl RiskAssessment.maxStep acc).weighted_score
      ∧ (∀ y ∈ l₁, y.weighted_score <
          (xs.foldl RiskAssessment.maxStep acc).weighted_score)
      ∧ (∀ y ∈ l₂, y.weighted_score ≤
          (xs.foldl RiskAssessment.maxStep acc).weighted_score)) := by
  induction xs generalizing acc with
  | nil => exact Or.inl ⟨rfl, by simp⟩
  | cons x xs ih =>
    rw [List.foldl_cons]
    by_cases hx : x.weighted_score > acc.weighted_score
    · rw [show RiskAssessment.maxStep acc x = x from if_pos hx]
      rcases ih x with ⟨heq, hall⟩ | ⟨l₁, l₂, hsplit, hlt, hl₁, hl₂⟩
      · rw [heq]
        exact Or.inr ⟨[], xs, rfl, hx, by simp, hall⟩
      · refine Or.inr ⟨x :: l₁, l₂, ?_, lt_trans hx hlt, ?_, hl₂⟩
        · rw [List.cons_append, ← hsplit]
        · intro y hy
          rcases List.mem_cons.mp hy with hy | hy
          · exact hy ▸ hlt
          · exact hl₁ y hy
    · rw [show RiskAssessment.maxStep acc x = acc from if_neg hx]
      rcases ih acc with ⟨heq, hall⟩ | ⟨l₁, l₂, hsplit, hlt, hl₁, hl₂⟩
      · refine Or.inl ⟨heq, ?_⟩
        intro y hy
        rcases List.mem_cons.mp hy with hy | hy
        · exact hy ▸ not_lt.mp hx
        · exact hall y hy
      · refine Or.inr ⟨x :: l₁, l₂, ?_, hlt, ?_, hl₂⟩
        · rw [List.cons_append, ← hsplit]
        · intro y hy
          rcases List.mem_cons.mp hy with hy | hy
          · exact hy ▸ lt_of_le_of_lt (not_lt.mp hx) hlt
          · exact hl₁ y hy

/-- C8: top_risk_factor is None exactly on an empty breakdown list, and
any returned breakdown is an occurrence in the original list whose
weighted_score is maximal, with every entry strictly before that
occurrence strictly smaller — the first maximum wins on ties. -/
theorem riskAssessment_top_risk_factor_first_max (ra : RiskAssessment) :
    (ra.risk_breakdown = [] → ra.top_risk_factor = none)
    ∧ (∀ r, ra.top_risk_factor = some r →
        ∃ l₁ l₂, ra.risk_breakdown = l₁ ++ r :: l₂
          ∧ (∀ y ∈ l₁, y.weighted_score < r.weighted_score)
          ∧ (∀ y ∈ ra.risk_breakdown,
              y.weighted_score ≤ r.weighted_score)) := by
  obtain ⟨bid, score, conf, bd, br, hc, nar, acts, ts⟩ := ra
  cases bd with
  | nil =>
      refine ⟨fun _ => rfl, fun r hr => ?_⟩
      exact Option.noConfusion hr
  | cons x xs =>
      refine ⟨fun hbd => List.noConfusion hbd, fun r hr => ?_⟩
      have hr' : xs.foldl RiskAssessment.maxStep x = r := Option.some.inj hr
      rcases maxStep_foldl_first_max xs x with ⟨heq, hall⟩ |
        ⟨l₁, l₂, hsplit, hlt, hl₁, hl₂⟩
      · have hxr : x = r := heq ▸ hr'
        subst hxr
        refine ⟨[], xs, rfl, by simp, ?_⟩
        intro y hy
        rcases List.mem_cons.mp hy with hy | hy
        · exact hy ▸ le_refl _
        · exact hall y hy
      · rw [hr'] at hsplit hlt hl₁ hl₂
        refine ⟨x :: l₁, l₂, ?_, ?_, ?_⟩
        · rw [List.cons_append, ← hsplit]
        · intro y hy
          rcases List.mem_cons.mp hy with hy | hy
          · exact hy ▸ hlt
          · exact hl₁ y hy
        · intro y hy
          rcases List.mem_cons.mp hy with hy | hy
          · exact hy ▸ le_of_lt hlt
          · rw [hsplit] at hy
            rcases List.mem_append.mp hy with hy | hy
            · exact le_of_lt (hl₁ y hy)
            · rcases List.mem_cons.mp hy with hy | hy
              · exact hy ▸ le_refl _
              · exact hl₂ y hy

/-- Witness for C8: applied to the assessment whose breakdown ties at
weighted score 5; the first of the tied entries is returned. -/
theorem riskAssessment_top_risk_factor_first_max_witness :
    ∃ l₁ l₂, raTie.risk_breakdown = l₁ ++ rbTieA :: l₂
      ∧ (∀ y ∈ l₁, y.weighted_score < rbTieA.weighted_score)
      ∧ (∀ y ∈ raTie.risk_breakdown,
          y.weighted_score ≤ rbTieA.weighted_score) :=
  (riskAssessment_top_risk_factor_first_max raTie).2 rbTieA (by
    simp only [raTie, RiskAssessment.top_risk_factor, List.foldl,
      RiskAssessment.maxStep, rbTieA, rbTieB]
    norm_num)

/-- C9: AuditRecord construction imposes no relation between the embedded
decision's risk_score and the snapshot's composite_risk_score: a valid
RiskAssessment with composite score 20 and a valid ReleaseDecision with
risk_score 10 assemble into an AuditRecord without error even though the
two scores differ. -/
theorem auditRecord_no_risk_score_reconciliation :
    RiskAssessment.build "build-1" 20 ConfidenceLevel.HIGH [rbTwenty] brEmpty
      none "low risk" [] 0 = Except.ok raTwenty
    ∧ ReleaseDecision.build "build-1" "c0ffee" DecisionKind.APPROVE 10
        ConfidenceLevel.HIGH "low risk" peApprove false none none
        PipelineAction.proceed [] 0 = Except.ok rdTen
    ∧ ∃ ar, AuditRecord.build "a1b2c3d" "build-1" "c0ffee" "production"
        rdTen none none (some raTwenty) 1 [] [] 0 = Except.ok ar
      ∧ ar.risk_assessment_snapshot = some raTwenty
      ∧ ar.decision.risk_score = 10
      ∧ raTwenty.composite_risk_score = 20
      ∧ ar.decision.risk_score ≠ raTwenty.composite_risk_score := by
  refine ⟨?_, rfl,
    ⟨⟨"a1b2c3d", "build-1", "c0ffee", "production", rdTen, none, none,
      some raTwenty, 1, [], [], 0⟩, ?_, rfl, rfl, rfl, by decide⟩⟩
  · simp only [RiskAssessment.build, RiskAssessment.totalWeighted,
      RiskAssessment.expectedLevel, rbTwenty, raTwenty, brEmpty]
    norm_num
  · simp only [AuditRecord.build]
    norm_num
